import Mathlib

/-!
Shallow embedding of the chatbot-backend core: the session/interaction
manager (`app/services/chat_service.py`), the Redis cache layer
(`app/services/cache_service.py`), the JWT token service
(`app/services/auth_service.py`) and the message-formatting part of the
AI service (`app/services/ai_service.py`).

Modelling conventions:
* Timestamps are natural numbers; `format_timestamp` (ISO rendering) is
  dropped since it is injective on the instants the code produces.
* MongoDB collections are lists of documents; `find_one` is `List.find?`,
  `update_one` / `delete_one` act on the first matching document,
  `$push` appends, `$pull` filters.
* The Redis store is a set of association lists.  TTL values on session
  and interaction entries are not tracked: TTL expiry is modelled as the
  entry simply being absent, exactly the observable the code uses
  (`exists`).  The rate counter does carry its expiry instant because the
  fixed-window behaviour depends on it.
* Outages are modelled by a `failing` flag on the store and on the cache:
  while the flag is set every client call raises, which each service
  method handles exactly as the corresponding `try/except` block does.
* Python exceptions become the `ChatErr` type: `valueErr` for
  `ValueError`, `exc` for a generic `Exception`; the message strings are
  the literal ones from the source (with `storeErrMsg` standing in for
  the database driver's message text).
* `metadata` on a message pair is omitted: the only call site of
  `message_pair` passes no metadata, so the field is invariably empty.
-/

namespace Chatbot

/-- One user/assistant message pair, as stored in Mongo and in the cached
interaction snapshot (`models/db_models.py::message_pair`). -/
structure MessagePairDoc where
  message_id : String
  user_message : String
  ai_response : String
  timestamp : Nat
deriving DecidableEq

/-- A sessions-collection document (`models/db_models.py::session_document`). -/
structure SessionDoc where
  session_id : String
  user_id : String
  interaction_ids : List String
  created_at : Nat
  last_active : Nat
  is_active : Bool
deriving DecidableEq

/-- An interactions-collection document
(`models/db_models.py::interaction_document`). -/
structure InteractionDoc where
  interaction_id : String
  session_id : String
  user_id : String
  messages : List MessagePairDoc
  created_at : Nat
  updated_at : Nat
  last_message_at : Nat
  is_active : Bool
deriving DecidableEq

/-- The MongoDB state: the two collections used by `ChatService`, plus an
outage flag (while `failing` is set every driver call raises). -/
structure DB where
  failing : Bool
  sessions : List SessionDoc
  interactions : List InteractionDoc
deriving DecidableEq

/-- The session snapshot cached under `session:{id}`
(built in `chat_service.py` lines 46-52 and 90-96). -/
structure SessionSnapshot where
  session_id : String
  user_id : String
  interaction_ids : List String
  created_at : Nat
  last_active : Nat
deriving DecidableEq

/-- The interaction snapshot cached under `interaction:{id}`
(built in `chat_service.py` lines 132-138, appended to at 224-229). -/
structure InteractionSnapshot where
  interaction_id : String
  session_id : String
  user_id : String
  messages : List MessagePairDoc
  created_at : Nat
deriving DecidableEq

/-- A rate-limiter counter: the stored count and the instant at which the
Redis key's TTL lapses. -/
structure RateEntry where
  count : Nat
  expires_at : Nat
deriving DecidableEq

/-- The Redis state: the three key families used by `CacheService`, plus
an outage flag (while `failing` is set every Redis call raises). -/
structure Cache where
  failing : Bool
  sessions : List (String × SessionSnapshot)
  interactions : List (String × InteractionSnapshot)
  rate : List (String × RateEntry)
deriving DecidableEq

/-- Association-list lookup (Redis `get` / `exists` on a live key). -/
def lookupA {α : Type} : List (String × α) → String → Option α
  | [], _ => none
  | (k, v) :: rest, key => if k == key then some v else lookupA rest key

/-- Association-list upsert (Redis `setex` overwrites the key). -/
def insertA {α : Type} : List (String × α) → String → α → List (String × α)
  | [], key, v => [(key, v)]
  | (k, w) :: rest, key, v =>
    if k == key then (key, v) :: rest else (k, w) :: insertA rest key v

/-- Association-list removal (Redis `delete`). -/
def removeA {α : Type} (l : List (String × α)) (key : String) : List (String × α) :=
  l.filter (fun p => !(p.1 == key))

/-- Mongo `update_one`: rewrite the first document matching the filter. -/
def updateFirstWhere {α : Type} (p : α → Bool) (f : α → α) : List α → List α
  | [] => []
  | x :: xs => if p x then f x :: xs else x :: updateFirstWhere p f xs

/-- Mongo `delete_one`: drop the first document matching the filter. -/
def removeFirstWhere {α : Type} (p : α → Bool) : List α → List α
  | [] => []
  | x :: xs => if p x then xs else x :: removeFirstWhere p xs

namespace CacheService

/-- CacheService.cache_session: `setex` the snapshot; any failure is
absorbed and reported as `False` (`cache_service.py` 19-29). -/
def cache_session (c : Cache) (sid : String) (v : SessionSnapshot) : Bool × Cache :=
  if c.failing then (false, c)
  else (true, { c with sessions := insertA c.sessions sid v })

/-- CacheService.get_session: `get`; on any failure return `None`
(`cache_service.py` 31-41). -/
def get_session (c : Cache) (sid : String) : Option SessionSnapshot :=
  if c.failing then none else lookupA c.sessions sid

/-- CacheService.delete_session (`cache_service.py` 43-52). -/
def delete_session (c : Cache) (sid : String) : Bool × Cache :=
  if c.failing then (false, c)
  else (true, { c with sessions := removeA c.sessions sid })

/-- CacheService.update_session_activity: refresh the key's TTL (not
tracked here); returns whether the key exists (`cache_service.py` 54-65). -/
def update_session_activity (c : Cache) (sid : String) : Bool :=
  if c.failing then false else (lookupA c.sessions sid).isSome

/-- CacheService.cache_interaction (`cache_service.py` 68-82). -/
def cache_interaction (c : Cache) (iid : String) (v : InteractionSnapshot) : Bool × Cache :=
  if c.failing then (false, c)
  else (true, { c with interactions := insertA c.interactions iid v })

/-- CacheService.get_interaction: `get`, refreshing the TTL (not tracked)
on a hit; on any failure return `None` (`cache_service.py` 84-97). -/
def get_interaction (c : Cache) (iid : String) : Option InteractionSnapshot :=
  if c.failing then none else lookupA c.interactions iid

/-- CacheService.delete_interaction (`cache_service.py` 99-108). -/
def delete_interaction (c : Cache) (iid : String) : Bool × Cache :=
  if c.failing then (false, c)
  else (true, { c with interactions := removeA c.interactions iid })

/-- CacheService.check_interaction_expired: `not exists(key)`; on any
cache failure the `except` block returns `True`, i.e. the check fails
closed (`cache_service.py` 110-118). -/
def check_interaction_expired (c : Cache) (iid : String) : Bool :=
  if c.failing then true else (lookupA c.interactions iid).isNone

end CacheService

/-- The rate-limit settings (`config/settings.py`): the configured request
limit and the fixed window length in seconds. -/
structure RateSettings where
  RATE_LIMIT_REQUESTS : Nat
  RATE_LIMIT_PERIOD : Nat
deriving DecidableEq

/-- Redis-visible read of the rate counter: a key whose TTL has lapsed
(`expires_at ≤ now`) reads as absent. -/
def Cache.rateLookup (c : Cache) (now : Nat) (uid : String) : Option RateEntry :=
  match lookupA c.rate uid with
  | some e => if now < e.expires_at then some e else none
  | none => none

namespace CacheService

/-- CacheService.check_rate_limit: first request in a window creates the
counter at 1 via `setex` (TTL = the window); later requests `incr` the
counter (leaving its TTL alone) unless the count has reached the limit;
any cache failure fails open (`cache_service.py` 121-151). -/
def check_rate_limit (s : RateSettings) (c : Cache) (now : Nat) (uid : String) :
    Bool × Cache :=
  if c.failing then (true, c)
  else
    match Cache.rateLookup c now uid with
    | none =>
      (true, { c with rate := insertA c.rate uid ⟨1, now + s.RATE_LIMIT_PERIOD⟩ })
    | some e =>
      if s.RATE_LIMIT_REQUESTS ≤ e.count then (false, c)
      else (true, { c with rate := insertA c.rate uid ⟨e.count + 1, e.expires_at⟩ })

end CacheService

/-- Stand-in for the message text of the database driver's exception when
the Durable Store is unreachable. -/
def storeErrMsg : String := "storage error"

/-- Python exceptions surfaced by the chat service: `valueErr` for
`ValueError`, `exc` for a generic `Exception`, each carrying the message. -/
inductive ChatErr where
  | valueErr (msg : String)
  | exc (msg : String)
deriving DecidableEq

/-- A conversation turn's role, as sent to the Response Generator. -/
inductive Role where
  | user
  | assistant
deriving DecidableEq

/-- A conversation turn handed to the Response Generator. -/
structure Turn where
  role : Role
  content : String
deriving DecidableEq

namespace AIService

/-- AIService.format_conversation_history: each prior pair becomes a user
turn then an assistant turn, in original order, followed by the current
user message (`ai_service.py` 51-86). -/
def format_conversation_history (hist : List MessagePairDoc) (current : String) :
    List Turn :=
  (hist.map (fun m => [Turn.mk Role.user m.user_message,
                       Turn.mk Role.assistant m.ai_response])).flatten
    ++ [Turn.mk Role.user current]

end AIService

/-- Python truthiness of an optional string argument: `None` and the empty
string are both falsy (`if not session_id:` in `chat_service.py`). -/
def optFalsy : Option String → Bool
  | none => true
  | some s => s == ""

/-- helpers.sanitize_message: strip surrounding whitespace, then truncate
to the 10000-character cap (`utils/helpers.py` 45-50). -/
def sanitize_message (message : String) : String :=
  let stripped :=
    ((message.data.dropWhile (fun ch => ch.isWhitespace)).reverse.dropWhile
      (fun ch => ch.isWhitespace)).reverse
  if stripped.length > 10000 then String.mk (stripped.take 10000)
  else String.mk stripped

/-- Python list slice `xs[k:]`: a negative start counts from the end,
clamped at 0 (used as `messages[-limit:]` in `chat_service.py`). -/
def pySliceFrom {α : Type} (xs : List α) (k : Int) : List α :=
  if k < 0 then xs.drop (xs.length - (-k).toNat)
  else xs.drop k.toNat

/-- Result of ChatService.create_session (`chat_service.py` 56-60). -/
structure CreateSessionResult where
  session_id : String
  user_id : String
  created_at : Nat
deriving DecidableEq

/-- Result of ChatService.create_interaction (`chat_service.py` 145-150). -/
structure CreateInteractionResult where
  interaction_id : String
  session_id : String
  created_at : Nat
  messages_count : Nat
deriving DecidableEq

/-- Result of ChatService.send_message (`chat_service.py` 234-241). -/
structure SendResult where
  session_id : String
  interaction_id : String
  message_id : String
  user_message : String
  ai_response : String
  timestamp : Nat
deriving DecidableEq

/-- Result of ChatService.get_chat_history (`chat_service.py` 261-268 and
293-300). -/
structure HistoryResult where
  interaction_id : String
  session_id : String
  messages : List MessagePairDoc
  total_messages : Nat
  created_at : Nat
  last_updated : Nat
deriving DecidableEq

namespace ChatService

/-- ChatService.create_session: insert the session document, cache the
snapshot (best effort), return ids; a store failure propagates
(`chat_service.py` 34-64).  Fresh ids are passed in as `freshSid`. -/
def create_session (db : DB) (c : Cache) (now : Nat) (freshSid uid : String) :
    Except ChatErr CreateSessionResult × DB × Cache :=
  if db.failing then (Except.error (ChatErr.exc storeErrMsg), db, c)
  else
    let doc : SessionDoc := ⟨freshSid, uid, [], now, now, true⟩
    let db1 := { db with sessions := db.sessions ++ [doc] }
    let c1 := (CacheService.cache_session c freshSid ⟨freshSid, uid, [], now, now⟩).2
    (Except.ok ⟨freshSid, uid, now⟩, db1, c1)

/-- Durable-Store fallback of ChatService.get_session (`chat_service.py`
75-101): query filtered by both id and owner; bump `last_active`;
re-cache; the surrounding `except` block turns any store failure into
`None` (`chat_service.py` 103-105). -/
def getSessionFallback (db : DB) (c : Cache) (now : Nat) (sid uid : String) :
    Option SessionSnapshot × DB × Cache :=
  if db.failing then (none, db, c)
  else
    match db.sessions.find? (fun d => d.session_id == sid && d.user_id == uid) with
    | none => (none, db, c)
    | some sess =>
      let newSessions := updateFirstWhere (fun d => d.session_id == sid)
        (fun d => { d with last_active := now }) db.sessions
      let db1 := { db with sessions := newSessions }
      let data : SessionSnapshot :=
        ⟨sess.session_id, sess.user_id, sess.interaction_ids, sess.created_at, now⟩
      let c1 := (CacheService.cache_session c sid data).2
      (some data, db1, c1)

/-- ChatService.get_session: cache first (a hit for another owner is
treated as a miss), Durable-Store fallback otherwise (`chat_service.py`
66-105).  The TTL refresh on a hit (`update_session_activity`) changes no
tracked state. -/
def get_session (db : DB) (c : Cache) (now : Nat) (sid uid : String) :
    Option SessionSnapshot × DB × Cache :=
  match CacheService.get_session c sid with
  | some s =>
    if s.user_id == uid then (some s, db, c)
    else getSessionFallback db c now sid uid
  | none => getSessionFallback db c now sid uid

/-- ChatService.create_interaction: insert the interaction document, push
its id onto the owning session and bump `last_active`, cache the fresh
interaction snapshot, then delete the session cache entry to force a
rebuild; a store failure propagates (`chat_service.py` 107-154). -/
def create_interaction (db : DB) (c : Cache) (now : Nat) (freshIid sid uid : String) :
    Except ChatErr CreateInteractionResult × DB × Cache :=
  if db.failing then (Except.error (ChatErr.exc storeErrMsg), db, c)
  else
    let doc : InteractionDoc := ⟨freshIid, sid, uid, [], now, now, now, true⟩
    let db1 := { db with interactions := db.interactions ++ [doc] }
    let newSessions := updateFirstWhere (fun d => d.session_id == sid)
      (fun d => { d with
          interaction_ids := d.interaction_ids ++ [freshIid],
          last_active := now }) db1.sessions
    let db2 := { db1 with sessions := newSessions }
    let c1 := (CacheService.cache_interaction c freshIid ⟨freshIid, sid, uid, [], now⟩).2
    let c2 := (CacheService.delete_session c1 sid).2
    (Except.ok ⟨freshIid, sid, now, 0⟩, db2, c2)

/-- ChatService._get_interaction_messages: cache first, Durable-Store
fallback with no ownership filter; any failure degrades to the empty
list (`chat_service.py` 343-363). -/
def get_interaction_messages (db : DB) (c : Cache) (iid : String) :
    List MessagePairDoc :=
  match CacheService.get_interaction c iid with
  | some cached => cached.messages
  | none =>
    if db.failing then []
    else
      match db.interactions.find? (fun d => d.interaction_id == iid) with
      | none => []
      | some it => it.messages

/-- Step 2 of ChatService.send_message (`chat_service.py` 171-179):
create a session when none was supplied, otherwise load-and-verify
ownership, raising ValueError "Invalid session_id" when absent. -/
def sendSessionStep (db : DB) (c : Cache) (now : Nat) (freshSid uid : String)
    (sessionId : Option String) : Except ChatErr String × DB × Cache :=
  if optFalsy sessionId then
    let r := create_session db c now freshSid uid
    (Except.map (fun cr => cr.session_id) r.1, r.2)
  else
    let sid := sessionId.getD ""
    let r := get_session db c now sid uid
    match r.1 with
    | some _ => (Except.ok sid, r.2)
    | none => (Except.error (ChatErr.valueErr "Invalid session_id"), r.2)

/-- Steps 3-4 of ChatService.send_message (`chat_service.py` 181-191):
when an interaction id was supplied, reject it if its cache entry is
absent (expired); when none was supplied, create a fresh interaction. -/
def sendInteractionStep (db : DB) (c : Cache) (now : Nat) (freshIid sid uid : String)
    (interactionId : Option String) : Except ChatErr String × DB × Cache :=
  if !(optFalsy interactionId) then
    let iid := interactionId.getD ""
    if CacheService.check_interaction_expired c iid then
      (Except.error (ChatErr.valueErr "Interaction expired. Please create a new interaction."),
        db, c)
    else (Except.ok iid, db, c)
  else
    let r := create_interaction db c now freshIid sid uid
    (Except.map (fun cr => cr.interaction_id) r.1, r.2)

/-- Steps 5-9 of ChatService.send_message (`chat_service.py` 193-241):
read the prior history, call the Response Generator (the external
collaborator is passed in as `ai`; on failure it raises
`Exception("Failed to generate AI response: ...")` per `ai_service.py`
47-49), then append the new pair to the store and — when a cached
snapshot is present — to the cache. -/
def sendPersistStep (db : DB) (c : Cache) (now : Nat) (freshMid : String)
    (ai : List Turn → Except String String) (sid iid message : String) :
    Except ChatErr SendResult × DB × Cache :=
  let history := get_interaction_messages db c iid
  let formatted := AIService.format_conversation_history history message
  match ai formatted with
  | Except.error m =>
    (Except.error (ChatErr.exc ("Failed to generate AI response: " ++ m)), db, c)
  | Except.ok aiResponse =>
    if db.failing then (Except.error (ChatErr.exc storeErrMsg), db, c)
    else
      let msgPair : MessagePairDoc := ⟨freshMid, message, aiResponse, now⟩
      let newInteractions := updateFirstWhere (fun d => d.interaction_id == iid)
        (fun d => { d with
            messages := d.messages ++ [msgPair],
            updated_at := now,
            last_message_at := now })
        db.interactions
      let db1 := { db with interactions := newInteractions }
      let c1 :=
        match CacheService.get_interaction c iid with
        | none => c
        | some cached =>
          (CacheService.cache_interaction c iid
            { cached with messages := cached.messages ++ [msgPair] }).2
      (Except.ok ⟨sid, iid, freshMid, message, aiResponse, now⟩, db1, c1)

/-- Wrapping applied by send_message's final `except` blocks
(`chat_service.py` 243-247): a `ValueError` is re-raised unchanged, any
other exception is wrapped as `Exception("Failed to send message: ...")`. -/
def wrapSendErr : ChatErr → ChatErr
  | ChatErr.valueErr m => ChatErr.valueErr m
  | ChatErr.exc m => ChatErr.exc ("Failed to send message: " ++ m)

/-- ChatService.send_message (`chat_service.py` 156-247), composed from
its steps; `freshSid` / `freshIid` / `freshMid` are the ids the generators
would produce if needed. -/
def send_message (db : DB) (c : Cache) (now : Nat)
    (freshSid freshIid freshMid : String) (ai : List Turn → Except String String)
    (uid rawMsg : String) (sessionId interactionId : Option String) :
    Except ChatErr SendResult × DB × Cache :=
  let message := sanitize_message rawMsg
  let s1 := sendSessionStep db c now freshSid uid sessionId
  let r :=
    match s1.1 with
    | Except.error e => (Except.error e, s1.2)
    | Except.ok sid =>
      let s2 := sendInteractionStep s1.2.1 s1.2.2 now freshIid sid uid interactionId
      match s2.1 with
      | Except.error e => (Except.error e, s2.2)
      | Except.ok iid => sendPersistStep s2.2.1 s2.2.2 now freshMid ai sid iid message
  (r.1.mapError wrapSendErr, r.2)

/-- Durable-Store fallback of ChatService.get_chat_history
(`chat_service.py` 270-300): ownership filter baked into the query;
raises ValueError "Interaction not found" when absent; a store failure
propagates (`chat_service.py` 302-304). -/
def historyFallback (db : DB) (c : Cache) (uid iid : String) (limit : Int) :
    Except ChatErr HistoryResult × DB × Cache :=
  if db.failing then (Except.error (ChatErr.exc storeErrMsg), db, c)
  else
    match db.interactions.find? (fun d => d.interaction_id == iid && d.user_id == uid) with
    | none => (Except.error (ChatErr.valueErr "Interaction not found"), db, c)
    | some it =>
      (Except.ok ⟨iid, it.session_id, pySliceFrom it.messages (-limit),
        it.messages.length, it.created_at, it.updated_at⟩, db, c)

/-- ChatService.get_chat_history (`chat_service.py` 249-304): cache first
with ownership check on the hit (the tail slice is `messages[-limit:]`),
Durable-Store fallback otherwise. -/
def get_chat_history (db : DB) (c : Cache) (now : Nat) (uid iid : String)
    (limit : Int) : Except ChatErr HistoryResult × DB × Cache :=
  match CacheService.get_interaction c iid with
  | some cached =>
    if cached.user_id == uid then
      (Except.ok ⟨iid, cached.session_id, pySliceFrom cached.messages (-limit),
        cached.messages.length, cached.created_at, now⟩, db, c)
    else historyFallback db c uid iid limit
  | none => historyFallback db c uid iid limit

/-- ChatService.delete_interaction (`chat_service.py` 306-341): verify
ownership via the store (ValueError "Interaction not found" when absent
or not owned), delete the document and the cache entry, pull the id out
of the owning session's list; a store failure propagates. -/
def delete_interaction (db : DB) (c : Cache) (uid iid : String) :
    Except ChatErr Bool × DB × Cache :=
  if db.failing then (Except.error (ChatErr.exc storeErrMsg), db, c)
  else
    match db.interactions.find? (fun d => d.interaction_id == iid && d.user_id == uid) with
    | none => (Except.error (ChatErr.valueErr "Interaction not found"), db, c)
    | some it =>
      let remaining := removeFirstWhere (fun d => d.interaction_id == iid) db.interactions
      let db1 := { db with interactions := remaining }
      let c1 := (CacheService.delete_interaction c iid).2
      let newSessions := updateFirstWhere (fun d => d.session_id == it.session_id)
        (fun d => { d with interaction_ids :=
          d.interaction_ids.filter (fun x => !(x == iid)) })
        db1.sessions
      let db2 := { db1 with sessions := newSessions }
      (Except.ok true, db2, c1)

end ChatService

/-- Classification performed by the send-message route's `except` block
(`routes/chat.py` 86-94): a generic exception whose message mentions the
AI-service failure is returned as a distinct AI_SERVICE_ERROR response
instead of a plain 500. -/
def routeDetectsAiError : ChatErr → Bool
  | ChatErr.exc m =>
    (decide ("AI_SERVICE_ERROR".data <:+: m.data)
      || decide ("Failed to generate AI response".data <:+: m.data))
  | ChatErr.valueErr _ => false

/-- The JWT settings (`config/settings.py`). -/
structure AuthSettings where
  JWT_SECRET_KEY : String
  JWT_ACCESS_TOKEN_EXPIRE_MINUTES : Nat
  JWT_REFRESH_TOKEN_EXPIRE_DAYS : Nat
deriving DecidableEq

/-- A decoded JWT payload (`auth_service.py` 39-44): the field `ty` embeds
the JSON claim named "type" (a Lean keyword). -/
structure Claims where
  user_id : String
  email : String
  exp : Nat
  ty : String
deriving DecidableEq

/-- A signed token: the payload plus the secret it was signed with
(`jwt.encode(payload, secret)`); signature verification is modelled as
comparing that secret with the server's. -/
structure Token where
  claims : Claims
  secret : String
deriving DecidableEq

namespace AuthService

/-- AuthService.create_access_token (`auth_service.py` 35-47): expiry is
now plus the configured minutes, kind "access". -/
def create_access_token (s : AuthSettings) (now : Nat) (uid email : String) : Token :=
  ⟨⟨uid, email, now + 60 * s.JWT_ACCESS_TOKEN_EXPIRE_MINUTES, "access"⟩, s.JWT_SECRET_KEY⟩

/-- AuthService.create_refresh_token (`auth_service.py` 49-61): expiry is
now plus the configured days, kind "refresh". -/
def create_refresh_token (s : AuthSettings) (now : Nat) (uid email : String) : Token :=
  ⟨⟨uid, email, now + 86400 * s.JWT_REFRESH_TOKEN_EXPIRE_DAYS, "refresh"⟩, s.JWT_SECRET_KEY⟩

/-- AuthService.decode_token (`auth_service.py` 63-74): `jwt.decode`
checks the signature and the registered `exp` claim (expired ⇒ JWTError);
every JWTError is caught and returned as `None`. -/
def decode_token (s : AuthSettings) (now : Nat) (t : Token) : Option Claims :=
  if t.secret == s.JWT_SECRET_KEY then
    if t.claims.exp < now then none else some t.claims
  else none

/-- AuthService.verify_access_token (`auth_service.py` 76-93): decode,
then kind check, then the (redundant, falsy-guarded) expiry re-check; all
failure modes return `None`. -/
def verify_access_token (s : AuthSettings) (now : Nat) (t : Token) : Option Claims :=
  match decode_token s now t with
  | none => none
  | some payload =>
    if !(payload.ty == "access") then none
    else if payload.exp != 0 then
      if payload.exp < now then none else some payload
    else some payload

/-- AuthService.verify_refresh_token (`auth_service.py` 95-112): same
shape with expected kind "refresh". -/
def verify_refresh_token (s : AuthSettings) (now : Nat) (t : Token) : Option Claims :=
  match decode_token s now t with
  | none => none
  | some payload =>
    if !(payload.ty == "refresh") then none
    else if payload.exp != 0 then
      if payload.exp < now then none else some payload
    else some payload

end AuthService

end Chatbot

deriving instance DecidableEq for Except

namespace Chatbot

/-- Concrete store for the C2 counterexample: `user_a` owns `session_a`;
`user_b` owns `interaction_b`. -/
def C2db : DB := ⟨false, [⟨"session_a", "user_a", [], 0, 0, true⟩],
  [⟨"interaction_b", "session_b", "user_b", [], 0, 0, 0, true⟩]⟩

/-- Concrete cache for the C2 counterexample: `user_b`'s interaction
snapshot is cache-present. -/
def C2cache : Cache := ⟨false, [],
  [("interaction_b", ⟨"interaction_b", "session_b", "user_b", [], 0⟩)], []⟩

/-- Concrete store for the C3 counterexample: the Durable Store is
unreachable yet holds the very session being asked for. -/
def C3dbFailing : DB := ⟨true, [⟨"session_a", "user_a", [], 0, 0, true⟩], []⟩

/-- A healthy, genuinely empty store, for comparison with `C3dbFailing`. -/
def C3dbMissing : DB := ⟨false, [], []⟩

/-- Concrete store for the C4 counterexample: one interaction holding
exactly one stored message pair. -/
def C4db : DB := ⟨false, [],
  [⟨"interaction_a", "session_a", "user_a", [⟨"message_1", "q", "a", 1⟩], 0, 1, 1, true⟩]⟩

/-- Concrete store for the C8 counterexample and witness. -/
def C8db : DB := ⟨false, [⟨"session_a", "user_a", ["interaction_x"], 0, 0, true⟩], []⟩

/-- Concrete cache for the C8 counterexample and witness: the session
entry was cached at instant 0 and is read back at instant 5. -/
def C8cacheHit : Cache :=
  ⟨false, [("session_a", ⟨"session_a", "user_a", ["interaction_x"], 0, 0⟩)], [], []⟩

end Chatbot

namespace Chatbot

/-- Deleting a cache key makes its lookup miss. -/
theorem lookupA_removeA {α : Type} (l : List (String × α)) (k : String) :
    lookupA (removeA l k) k = none := by
  induction l with
  | nil => rfl
  | cons p rest ih =>
    by_cases h : p.1 == k
    · simpa [removeA, List.filter, h] using ih
    · simp [removeA, List.filter, h, lookupA] at ih ⊢
      simpa [removeA] using ih

/-- create_session touches only the sessions collection and the session
cache: the interaction state and the outage flags are untouched. -/
theorem create_session_preserves (db : DB) (c : Cache) (now : Nat) (freshSid uid : String) :
    ((ChatService.create_session db c now freshSid uid).2.1.interactions = db.interactions) ∧
    ((ChatService.create_session db c now freshSid uid).2.1.failing = db.failing) ∧
    ((ChatService.create_session db c now freshSid uid).2.2.interactions = c.interactions) ∧
    ((ChatService.create_session db c now freshSid uid).2.2.failing = c.failing) := by
  simp only [ChatService.create_session, CacheService.cache_session]
  split
  · exact ⟨rfl, rfl, rfl, rfl⟩
  · split
    · exact ⟨rfl, rfl, rfl, rfl⟩
    · exact ⟨rfl, rfl, rfl, rfl⟩

/-- The Durable-Store fallback of get_session likewise leaves all
interaction state and the outage flags untouched. -/
theorem getSessionFallback_preserves (db : DB) (c : Cache) (now : Nat) (sid uid : String) :
    ((ChatService.getSessionFallback db c now sid uid).2.1.interactions = db.interactions) ∧
    ((ChatService.getSessionFallback db c now sid uid).2.1.failing = db.failing) ∧
    ((ChatService.getSessionFallback db c now sid uid).2.2.interactions = c.interactions) ∧
    ((ChatService.getSessionFallback db c now sid uid).2.2.failing = c.failing) := by
  simp only [ChatService.getSessionFallback, CacheService.cache_session]
  split
  · exact ⟨rfl, rfl, rfl, rfl⟩
  · split
    · exact ⟨rfl, rfl, rfl, rfl⟩
    · split
      · exact ⟨rfl, rfl, rfl, rfl⟩
      · exact ⟨rfl, rfl, rfl, rfl⟩

/-- get_session leaves all interaction state and the outage flags
untouched. -/
theorem get_session_preserves (db : DB) (c : Cache) (now : Nat) (sid uid : String) :
    ((ChatService.get_session db c now sid uid).2.1.interactions = db.interactions) ∧
    ((ChatService.get_session db c now sid uid).2.1.failing = db.failing) ∧
    ((ChatService.get_session db c now sid uid).2.2.interactions = c.interactions) ∧
    ((ChatService.get_session db c now sid uid).2.2.failing = c.failing) := by
  simp only [ChatService.get_session]
  split
  · split
    · exact ⟨rfl, rfl, rfl, rfl⟩
    · exact getSessionFallback_preserves db c now sid uid
  · exact getSessionFallback_preserves db c now sid uid

/-- The session-resolution step of send_message leaves all interaction
state and the outage flags untouched. -/
theorem sendSessionStep_preserves (db : DB) (c : Cache) (now : Nat) (freshSid uid : String)
    (sessionId : Option String) :
    ((ChatService.sendSessionStep db c now freshSid uid sessionId).2.1.interactions
        = db.interactions) ∧
    ((ChatService.sendSessionStep db c now freshSid uid sessionId).2.1.failing = db.failing) ∧
    ((ChatService.sendSessionStep db c now freshSid uid sessionId).2.2.interactions
        = c.interactions) ∧
    ((ChatService.sendSessionStep db c now freshSid uid sessionId).2.2.failing = c.failing) := by
  simp only [ChatService.sendSessionStep]
  split
  · exact create_session_preserves db c now freshSid uid
  · split
    · exact get_session_preserves db c now (sessionId.getD "") uid
    · exact get_session_preserves db c now (sessionId.getD "") uid

/-- After pushing a fresh interaction id onto the first session document
matching `sid`, the owner-filtered query finds exactly that updated
document. -/
theorem find?_update_push (xs : List SessionDoc) (sid uid freshIid : String) (now : Nat)
    (d : SessionDoc)
    (hfind : xs.find? (fun x => x.session_id == sid) = some d)
    (howner : d.user_id = uid) :
    (updateFirstWhere (fun x => x.session_id == sid)
        (fun x => { x with
            interaction_ids := x.interaction_ids ++ [freshIid],
            last_active := now }) xs).find?
        (fun x => x.session_id == sid && x.user_id == uid)
      = some { d with
          interaction_ids := d.interaction_ids ++ [freshIid],
          last_active := now } := by
  induction xs with
  | nil => simp at hfind
  | cons x xs ih =>
    by_cases hx : x.session_id == sid
    · simp only [List.find?_cons, hx] at hfind
      injection hfind with hd
      subst hd
      simp [updateFirstWhere, hx, List.find?_cons, howner]
    · simp only [List.find?_cons, hx] at hfind
      have hrec := ih hfind
      simp only [updateFirstWhere, hx, Bool.false_eq_true, if_false]
      simpa [List.find?_cons, hx] using hrec

/-- A cache hit whose owner differs from the requesting user fails the
ownership comparison. -/
theorem cache_session_owner_mismatch (c : Cache) (sid uid : String)
    (hco : ∀ e, lookupA c.sessions sid = some e → e.user_id ≠ uid) :
    ∀ e, CacheService.get_session c sid = some e → (e.user_id == uid) = false := by
  intro e he
  unfold CacheService.get_session at he
  split at he
  · exact absurd he (by simp)
  · simpa using hco e he

/-- Interaction-cache analogue of `cache_session_owner_mismatch`. -/
theorem cache_interaction_owner_mismatch (c : Cache) (iid uid : String)
    (hco : ∀ e, lookupA c.interactions iid = some e → e.user_id ≠ uid) :
    ∀ e, CacheService.get_interaction c iid = some e → (e.user_id == uid) = false := by
  intro e he
  unfold CacheService.get_interaction at he
  split at he
  · exact absurd he (by simp)
  · simpa using hco e he

/-- Python slice `xs[-N:]` with a strictly positive `N` keeps the last
`N` elements. -/
theorem pySliceFrom_neg {α : Type} (xs : List α) (N : Nat) (hN : 1 ≤ N) :
    pySliceFrom xs (-(N : Int)) = xs.drop (xs.length - N) := by
  unfold pySliceFrom
  rw [if_pos (by omega : -(N : Int) < 0)]
  congr 1
  simp

/-- The tail slice keeps exactly `min N total` elements. -/
theorem length_drop_tail {α : Type} (xs : List α) (N : Nat) :
    (xs.drop (xs.length - N)).length = min N xs.length := by
  rw [List.length_drop]
  omega

end Chatbot

namespace Chatbot

/-- C1: a send_message call that supplies an interaction_id whose cache
entry is absent fails with the distinct "Interaction expired" ValueError
(the InvalidState category), leaves both the stored interactions and the
cached interaction snapshots exactly as the session-resolution step left
them (so no interaction is created or resurrected under that id — or any
id), and decides expiry without consulting the Durable Store: the store's
interaction collection is universally quantified and may even contain a
document under that very id. -/
theorem C1_expired_interaction_rejected (db : DB) (c : Cache) (now : Nat)
    (freshSid freshIid freshMid : String) (ai : List Turn → Except String String)
    (uid rawMsg iid sid : String) (sessionId : Option String) (db1 : DB) (c1 : Cache)
    (hiid : iid ≠ "")
    (habs : lookupA c.interactions iid = none)
    (hstep : ChatService.sendSessionStep db c now freshSid uid sessionId
      = (Except.ok sid, db1, c1)) :
    ChatService.send_message db c now freshSid freshIid freshMid ai uid rawMsg
        sessionId (some iid)
      = (Except.error (ChatErr.valueErr "Interaction expired. Please create a new interaction."),
          db1, c1) ∧
    db1.interactions = db.interactions ∧
    c1.interactions = c.interactions := by
  obtain ⟨h1, h2, h3, h4⟩ := sendSessionStep_preserves db c now freshSid uid sessionId
  rw [hstep] at h1 h2 h3 h4
  dsimp only at h1 h2 h3 h4
  have hfalsy : optFalsy (some iid) = false := by
    simp [optFalsy, hiid]
  have hexp : CacheService.check_interaction_expired c1 iid = true := by
    unfold CacheService.check_interaction_expired
    split
    · rfl
    · simp [h3, habs]
  refine ⟨?_, h1, h3⟩
  simp only [ChatService.send_message, hstep, ChatService.sendInteractionStep, hfalsy,
    Bool.not_false, if_true, Option.getD_some, hexp, ChatErr.valueErr.injEq,
    Except.mapError, ChatService.wrapSendErr]

/-- Witness for C1 at a concrete state: a valid session, an empty
interaction cache, and an explicit stale interaction id. -/
theorem C1_witness :
    ChatService.send_message ⟨false, [⟨"session_a", "user_a", [], 0, 0, true⟩], []⟩
        ⟨false, [], [], []⟩ 5 "session_new" "interaction_new" "message_1"
        (fun _ => Except.ok "r") "user_a" "hi" (some "session_a")
        (some "interaction_gone")
      = (Except.error
            (ChatErr.valueErr "Interaction expired. Please create a new interaction."),
          ⟨false, [⟨"session_a", "user_a", [], 0, 5, true⟩], []⟩,
          ⟨false, [("session_a", ⟨"session_a", "user_a", [], 0, 5⟩)], [], []⟩) :=
  (C1_expired_interaction_rejected
    ⟨false, [⟨"session_a", "user_a", [], 0, 0, true⟩], []⟩ ⟨false, [], [], []⟩ 5
    "session_new" "interaction_new" "message_1" (fun _ => Except.ok "r")
    "user_a" "hi" "interaction_gone" "session_a" (some "session_a")
    ⟨false, [⟨"session_a", "user_a", [], 0, 5, true⟩], []⟩
    ⟨false, [("session_a", ⟨"session_a", "user_a", [], 0, 5⟩)], [], []⟩
    (by decide) (by decide) (by decide)).1

/-- C2 (amended): get_session, get_chat_history and delete_interaction —
and the session named in send_message — treat an entity owned by another
user exactly like a missing entity (same literal not-found outcome, state
unchanged, nothing of the other user's data returned or modified), even
when the foreign entity is cache-present; send_message however performs
no ownership check on a supplied interaction_id, so this isolation does
not extend to the interaction named in send_message (see the
counterexample). -/
theorem C2_amended_ownership_isolation (db : DB) (c : Cache) (now : Nat)
    (freshSid freshIid freshMid : String) (ai : List Turn → Except String String)
    (rawMsg uid sid iid : String) (limit : Int) (interactionId : Option String)
    (hdb : db.failing = false) :
    ((∀ x ∈ db.sessions, x.session_id = sid → x.user_id ≠ uid) →
     (∀ e, lookupA c.sessions sid = some e → e.user_id ≠ uid) →
     ChatService.get_session db c now sid uid = (none, db, c)) ∧
    ((∀ x ∈ db.interactions, x.interaction_id = iid → x.user_id ≠ uid) →
     (∀ e, lookupA c.interactions iid = some e → e.user_id ≠ uid) →
     ChatService.get_chat_history db c now uid iid limit
       = (Except.error (ChatErr.valueErr "Interaction not found"), db, c)) ∧
    ((∀ x ∈ db.interactions, x.interaction_id = iid → x.user_id ≠ uid) →
     ChatService.delete_interaction db c uid iid
       = (Except.error (ChatErr.valueErr "Interaction not found"), db, c)) ∧
    (sid ≠ "" →
     (∀ x ∈ db.sessions, x.session_id = sid → x.user_id ≠ uid) →
     (∀ e, lookupA c.sessions sid = some e → e.user_id ≠ uid) →
     ChatService.send_message db c now freshSid freshIid freshMid ai uid rawMsg
         (some sid) interactionId
       = (Except.error (ChatErr.valueErr "Invalid session_id"), db, c)) := by
  have partA : (∀ x ∈ db.sessions, x.session_id = sid → x.user_id ≠ uid) →
      (∀ e, lookupA c.sessions sid = some e → e.user_id ≠ uid) →
      ChatService.get_session db c now sid uid = (none, db, c) := by
    intro hdbo hco
    have hfind : db.sessions.find? (fun x => x.session_id == sid && x.user_id == uid)
        = none := by
      rw [List.find?_eq_none]
      intro x hx
      simp only [Bool.and_eq_true, beq_iff_eq, not_and]
      exact fun h1 h2 => hdbo x hx h1 h2
    have hfb : ChatService.getSessionFallback db c now sid uid = (none, db, c) := by
      simp [ChatService.getSessionFallback, hdb, hfind]
    unfold ChatService.get_session
    cases hcs : CacheService.get_session c sid with
    | none => exact hfb
    | some e =>
      simp [cache_session_owner_mismatch c sid uid hco e hcs, hfb]
  refine ⟨partA, ?_, ?_, ?_⟩
  · intro hdbo hco
    have hfind : db.interactions.find?
        (fun x => x.interaction_id == iid && x.user_id == uid) = none := by
      rw [List.find?_eq_none]
      intro x hx
      simp only [Bool.and_eq_true, beq_iff_eq, not_and]
      exact fun h1 h2 => hdbo x hx h1 h2
    have hfb : ChatService.historyFallback db c uid iid limit
        = (Except.error (ChatErr.valueErr "Interaction not found"), db, c) := by
      simp [ChatService.historyFallback, hdb, hfind]
    unfold ChatService.get_chat_history
    cases hcs : CacheService.get_interaction c iid with
    | none => exact hfb
    | some e =>
      simp [cache_interaction_owner_mismatch c iid uid hco e hcs, hfb]
  · intro hdbo
    have hfind : db.interactions.find?
        (fun x => x.interaction_id == iid && x.user_id == uid) = none := by
      rw [List.find?_eq_none]
      intro x hx
      simp only [Bool.and_eq_true, beq_iff_eq, not_and]
      exact fun h1 h2 => hdbo x hx h1 h2
    simp [ChatService.delete_interaction, hdb, hfind]
  · intro hsid hdbo hco
    have hget := partA hdbo hco
    have hfalsy : optFalsy (some sid) = false := by simp [optFalsy, hsid]
    have hstep : ChatService.sendSessionStep db c now freshSid uid (some sid)
        = (Except.error (ChatErr.valueErr "Invalid session_id"), db, c) := by
      simp [ChatService.sendSessionStep, hfalsy, hget]
    simp [ChatService.send_message, hstep, Except.mapError, ChatService.wrapSendErr]

/-- Witness for the amended C2: asking for another user's session yields
the plain not-found outcome with the state untouched. -/
theorem C2_amended_witness :
    ChatService.get_session ⟨false, [⟨"session_b", "user_b", [], 0, 0, true⟩], []⟩
        ⟨false, [], [], []⟩ 3 "session_b" "user_a"
      = (none, ⟨false, [⟨"session_b", "user_b", [], 0, 0, true⟩], []⟩,
          ⟨false, [], [], []⟩) :=
  (C2_amended_ownership_isolation
    ⟨false, [⟨"session_b", "user_b", [], 0, 0, true⟩], []⟩ ⟨false, [], [], []⟩ 3
    "session_x" "interaction_x" "message_x" (fun _ => Except.ok "r") "m"
    "user_a" "session_b" "interaction_b" 1 none (by decide)).1
    (by decide) (fun e he => by simp [lookupA] at he)

/-- Counterexample to C2 as stated: with user_b's interaction cache-present,
user_a's send_message that names it succeeds (instead of any not-found
outcome) and appends a message pair to user_b's stored interaction. -/
theorem C2_counterexample :
    (ChatService.send_message C2db C2cache 5 "session_new" "interaction_new" "message_1"
        (fun _ => Except.ok "reply") "user_a" "hi" (some "session_a")
        (some "interaction_b")).1
      = Except.ok ⟨"session_a", "interaction_b", "message_1", "hi", "reply", 5⟩ ∧
    (ChatService.send_message C2db C2cache 5 "session_new" "interaction_new" "message_1"
        (fun _ => Except.ok "reply") "user_a" "hi" (some "session_a")
        (some "interaction_b")).2.1.interactions
      = [⟨"interaction_b", "session_b", "user_b", [⟨"message_1", "hi", "reply", 5⟩],
          0, 5, 5, true⟩] := by
  decide

end Chatbot

namespace Chatbot

/-- C3 (amended): while the Durable Store is unreachable,
create_session, create_interaction, get_chat_history (not served from
cache) and delete_interaction surface the store failure as an error; but
get_session swallows the failure and returns the same absent (`none`)
outcome as a missing session, and the internal history read used by
send_message degrades to an empty list. -/
theorem C3_amended_store_failure_handling (db : DB) (c : Cache) (now : Nat)
    (freshSid freshIid uid sid iid : String) (limit : Int)
    (hdb : db.failing = true)
    (hsc : lookupA c.sessions sid = none)
    (hic : lookupA c.interactions iid = none) :
    (ChatService.create_session db c now freshSid uid).1
      = Except.error (ChatErr.exc storeErrMsg) ∧
    (ChatService.create_interaction db c now freshIid sid uid).1
      = Except.error (ChatErr.exc storeErrMsg) ∧
    (ChatService.get_chat_history db c now uid iid limit).1
      = Except.error (ChatErr.exc storeErrMsg) ∧
    (ChatService.delete_interaction db c uid iid).1
      = Except.error (ChatErr.exc storeErrMsg) ∧
    (ChatService.get_session db c now sid uid).1 = none ∧
    ChatService.get_interaction_messages db c iid = [] := by
  have hgi : CacheService.get_interaction c iid = none := by
    unfold CacheService.get_interaction
    split
    · rfl
    · exact hic
  have hgs : CacheService.get_session c sid = none := by
    unfold CacheService.get_session
    split
    · rfl
    · exact hsc
  refine ⟨?_, ?_, ?_, ?_, ?_, ?_⟩
  · simp [ChatService.create_session, hdb]
  · simp [ChatService.create_interaction, hdb]
  · simp [ChatService.get_chat_history, hgi, ChatService.historyFallback, hdb]
  · simp [ChatService.delete_interaction, hdb]
  · simp [ChatService.get_session, hgs, ChatService.getSessionFallback, hdb]
  · simp [ChatService.get_interaction_messages, hgi, hdb]

/-- Witness for the amended C3 at a concrete failing store. -/
theorem C3_amended_witness :
    (ChatService.get_session C3dbFailing ⟨false, [], [], []⟩ 9 "session_a" "user_a").1
      = none :=
  (C3_amended_store_failure_handling C3dbFailing ⟨false, [], [], []⟩ 9
    "session_x" "interaction_x" "user_a" "session_a" "interaction_a" 1
    (by decide) (by decide) (by decide)).2.2.2.2.1

/-- Counterexample to C3 as stated: with the store unreachable yet
holding `session_a`, get_session reports the session as absent — the
identical outcome produced by a healthy store that lacks the session —
instead of surfacing a storage error. -/
theorem C3_counterexample :
    (ChatService.get_session C3dbFailing ⟨false, [], [], []⟩ 5 "session_a" "user_a").1
      = none ∧
    (ChatService.get_session C3dbMissing ⟨false, [], [], []⟩ 5 "session_a" "user_a").1
      = none := by
  decide

/-- C4 (amended): for every limit N ≥ 1, get_chat_history returns exactly
the last min(N, total) stored pairs in original chronological order (a
tail slice), with total_messages equal to the full stored count, on both
the cache-hit and the Durable-Store path; at N = 0 the Python slice
`messages[-0:]` instead returns all pairs (see the counterexample). -/
theorem C4_amended_history_limit (db : DB) (c : Cache) (now : Nat) (uid iid : String)
    (N : Nat) (hN : 1 ≤ N) :
    (∀ e : InteractionSnapshot, c.failing = false →
      lookupA c.interactions iid = some e → e.user_id = uid →
      (ChatService.get_chat_history db c now uid iid (N : Int)).1
        = Except.ok ⟨iid, e.session_id, e.messages.drop (e.messages.length - N),
            e.messages.length, e.created_at, now⟩ ∧
      (e.messages.drop (e.messages.length - N)).length = min N e.messages.length) ∧
    (∀ it : InteractionDoc, lookupA c.interactions iid = none → db.failing = false →
      db.interactions.find? (fun x => x.interaction_id == iid && x.user_id == uid)
        = some it →
      (ChatService.get_chat_history db c now uid iid (N : Int)).1
        = Except.ok ⟨iid, it.session_id, it.messages.drop (it.messages.length - N),
            it.messages.length, it.created_at, it.updated_at⟩ ∧
      (it.messages.drop (it.messages.length - N)).length = min N it.messages.length) := by
  constructor
  · intro e hcf he howner
    have hg : CacheService.get_interaction c iid = some e := by
      simp [CacheService.get_interaction, hcf, he]
    have hs : pySliceFrom e.messages (-(N : Int)) = e.messages.drop (e.messages.length - N) :=
      pySliceFrom_neg e.messages N hN
    refine ⟨?_, length_drop_tail e.messages N⟩
    simp [ChatService.get_chat_history, hg, howner, hs]
  · intro it hnone hdbf hfind
    have hg : CacheService.get_interaction c iid = none := by
      unfold CacheService.get_interaction
      split
      · rfl
      · exact hnone
    have hs : pySliceFrom it.messages (-(N : Int))
        = it.messages.drop (it.messages.length - N) :=
      pySliceFrom_neg it.messages N hN
    refine ⟨?_, length_drop_tail it.messages N⟩
    simp [ChatService.get_chat_history, hg, ChatService.historyFallback, hdbf, hfind, hs]

/-- Witness for the amended C4: limit 1 on a one-pair interaction returns
that pair with total 1. -/
theorem C4_amended_witness :
    (ChatService.get_chat_history C4db ⟨false, [], [], []⟩ 7 "user_a" "interaction_a"
        ((1 : Nat) : Int)).1
      = Except.ok ⟨"interaction_a", "session_a", [⟨"message_1", "q", "a", 1⟩], 1, 0, 1⟩ := by
  have h := (C4_amended_history_limit C4db ⟨false, [], [], []⟩ 7 "user_a" "interaction_a" 1
    (by decide)).2
    ⟨"interaction_a", "session_a", "user_a", [⟨"message_1", "q", "a", 1⟩], 0, 1, 1, true⟩
    (by decide) (by decide) (by decide)
  simpa using h.1

/-- Counterexample to C4 as stated: at limit N = 0 on an interaction with
one stored pair, the claim demands min(0, 1) = 0 returned pairs, but the
code returns the full list of 1. -/
theorem C4_counterexample :
    (ChatService.get_chat_history C4db ⟨false, [], [], []⟩ 7 "user_a" "interaction_a" 0).1
      = Except.ok ⟨"interaction_a", "session_a", [⟨"message_1", "q", "a", 1⟩], 1, 0, 1⟩ ∧
    ([(⟨"message_1", "q", "a", 1⟩ : MessagePairDoc)].length ≠ min 0 1) := by
  decide

end Chatbot

namespace Chatbot

/-- C5: with the fixed-window limiter configured at limit L and window P,
(1) the first request of a window (no live counter) is allowed and
creates the counter at 1 with expiry now + P; (2) a request that finds a
live counter below L is allowed and increments the count while keeping
the stored expiry (the TTL is not reset); (3) a request that finds the
count at or above L is denied and changes nothing; (4) once a counter's
TTL has lapsed, the next request is treated as a fresh window: allowed,
count restarted at 1 with a new TTL. -/
theorem C5_rate_limiter (s : RateSettings) (c : Cache) (now now2 : Nat) (uid : String)
    (hc : c.failing = false) :
    (Cache.rateLookup c now uid = none →
      CacheService.check_rate_limit s c now uid =
        (true, { c with rate := insertA c.rate uid ⟨1, now + s.RATE_LIMIT_PERIOD⟩ })) ∧
    (∀ e, Cache.rateLookup c now uid = some e → e.count < s.RATE_LIMIT_REQUESTS →
      CacheService.check_rate_limit s c now uid =
        (true, { c with rate := insertA c.rate uid ⟨e.count + 1, e.expires_at⟩ })) ∧
    (∀ e, Cache.rateLookup c now uid = some e → s.RATE_LIMIT_REQUESTS ≤ e.count →
      CacheService.check_rate_limit s c now uid = (false, c)) ∧
    (∀ e, lookupA c.rate uid = some e → e.expires_at ≤ now2 →
      CacheService.check_rate_limit s c now2 uid =
        (true, { c with rate := insertA c.rate uid ⟨1, now2 + s.RATE_LIMIT_PERIOD⟩ })) := by
  refine ⟨?_, ?_, ?_, ?_⟩
  · intro h
    simp [CacheService.check_rate_limit, hc, h]
  · intro e h hlt
    simp [CacheService.check_rate_limit, hc, h, Nat.not_le.mpr hlt]
  · intro e h hle
    simp [CacheService.check_rate_limit, hc, h, hle]
  · intro e h hexp
    have hnone : Cache.rateLookup c now2 uid = none := by
      simp [Cache.rateLookup, h, Nat.not_lt.mpr hexp]
    simp [CacheService.check_rate_limit, hc, hnone]

/-- Witness for C5: the first request on an empty cache creates the
counter at 1 with the window TTL and is allowed. -/
theorem C5_witness :
    CacheService.check_rate_limit ⟨2, 60⟩ ⟨false, [], [], []⟩ 0 "user_a"
      = (true, ⟨false, [], [], [("user_a", ⟨1, 60⟩)]⟩) :=
  (C5_rate_limiter ⟨2, 60⟩ ⟨false, [], [], []⟩ 0 0 "user_a" (by decide)).1 (by decide)

/-- C6: verifying a freshly issued access token with expected kind
"access" succeeds and yields the payload carrying exactly the issuing
user_id and email; verifying a refresh token as an access token fails;
and verifying any token whose embedded expiry lies before the current
time fails, for both expected kinds.  All failures are the `none` value
of the `Option` codomain — the model of "returns FAIL rather than letting
an exception escape". -/
theorem C6_token_verification (s : AuthSettings) (now : Nat) (uid email : String) :
    (AuthService.verify_access_token s now (AuthService.create_access_token s now uid email)
      = some ⟨uid, email, now + 60 * s.JWT_ACCESS_TOKEN_EXPIRE_MINUTES, "access"⟩) ∧
    (AuthService.verify_access_token s now (AuthService.create_refresh_token s now uid email)
      = none) ∧
    (∀ t : Token, t.claims.exp < now →
      AuthService.verify_access_token s now t = none ∧
      AuthService.verify_refresh_token s now t = none) := by
  refine ⟨?_, ?_, ?_⟩
  · simp only [AuthService.verify_access_token, AuthService.decode_token,
      AuthService.create_access_token]
    simp only [beq_self_eq_true, if_true]
    rw [if_neg (by omega)]
    simp only [beq_self_eq_true, Bool.not_true, Bool.false_eq_true, if_false]
    split
    · rw [if_neg (by omega)]
    · rfl
  · simp only [AuthService.verify_access_token, AuthService.decode_token,
      AuthService.create_refresh_token]
    simp only [beq_self_eq_true, if_true]
    rw [if_neg (by omega)]
    simp
  · intro t ht
    have hdec : AuthService.decode_token s now t = none := by
      simp [AuthService.decode_token, ht]
    constructor <;>
      simp [AuthService.verify_access_token, AuthService.verify_refresh_token, hdec]

/-- Witness for C6: an access token that expired at instant 10 is
rejected at instant 50. -/
theorem C6_witness :
    AuthService.verify_access_token ⟨"k", 60, 7⟩ 50
        ⟨⟨"user_1", "a@b.c", 10, "access"⟩, "k"⟩
      = none :=
  ((C6_token_verification ⟨"k", 60, 7⟩ 50 "user_1" "a@b.c").2.2
    ⟨⟨"user_1", "a@b.c", 10, "access"⟩, "k"⟩ (by decide)).1

/-- C7: a successful create_interaction call returns the fresh ids,
leaves no session cache entry under the parent session's key (the entry
is deleted, not patched), and the next get_session call for that session
rebuilds its snapshot from the Durable Store, whose interaction_ids list
now ends with the freshly appended interaction id. -/
theorem C7_create_interaction_invalidates (db : DB) (c : Cache) (now now2 : Nat)
    (freshIid sid uid : String) (d : SessionDoc)
    (hdb : db.failing = false) (hc : c.failing = false)
    (hfind : db.sessions.find? (fun x => x.session_id == sid) = some d)
    (howner : d.user_id = uid) :
    (ChatService.create_interaction db c now freshIid sid uid).1
      = Except.ok ⟨freshIid, sid, now, 0⟩ ∧
    lookupA (ChatService.create_interaction db c now freshIid sid uid).2.2.sessions sid
      = none ∧
    (ChatService.get_session (ChatService.create_interaction db c now freshIid sid uid).2.1
        (ChatService.create_interaction db c now freshIid sid uid).2.2 now2 sid uid).1
      = some ⟨sid, uid, d.interaction_ids ++ [freshIid], d.created_at, now2⟩ ∧
    freshIid ∈ (d.interaction_ids ++ [freshIid]) := by
  have hsid : d.session_id = sid := by
    have hp := List.find?_some hfind
    simpa using hp
  have hci : ChatService.create_interaction db c now freshIid sid uid
      = (Except.ok ⟨freshIid, sid, now, 0⟩,
         { failing := db.failing,
           sessions := updateFirstWhere (fun x => x.session_id == sid)
             (fun x => { x with
                 interaction_ids := x.interaction_ids ++ [freshIid],
                 last_active := now })
             db.sessions,
           interactions := db.interactions ++ [⟨freshIid, sid, uid, [], now, now, now, true⟩] },
         { failing := c.failing,
           sessions := removeA c.sessions sid,
           interactions := insertA c.interactions freshIid ⟨freshIid, sid, uid, [], now⟩,
           rate := c.rate }) := by
    simp [ChatService.create_interaction, CacheService.cache_interaction,
      CacheService.delete_session, hdb, hc]
  rw [hci]
  refine ⟨rfl, ?_, ?_, by simp⟩
  · exact lookupA_removeA c.sessions sid
  · have hfind2 := find?_update_push db.sessions sid uid freshIid now d hfind howner
    simp only [ChatService.get_session, CacheService.get_session, hc,
      Bool.false_eq_true, if_false, lookupA_removeA]
    simp only [ChatService.getSessionFallback, hdb, Bool.false_eq_true, if_false,
      hfind2]
    simp [hsid, howner]

/-- Witness for C7 at a concrete one-session state. -/
theorem C7_witness :
    (ChatService.create_interaction ⟨false, [⟨"session_a", "user_a", [], 0, 0, true⟩], []⟩
        ⟨false, [("session_a", ⟨"session_a", "user_a", [], 0, 0⟩)], [], []⟩ 4
        "interaction_new" "session_a" "user_a").1
      = Except.ok ⟨"interaction_new", "session_a", 4, 0⟩ ∧
    lookupA (ChatService.create_interaction
        ⟨false, [⟨"session_a", "user_a", [], 0, 0, true⟩], []⟩
        ⟨false, [("session_a", ⟨"session_a", "user_a", [], 0, 0⟩)], [], []⟩ 4
        "interaction_new" "session_a" "user_a").2.2.sessions "session_a" = none := by
  have h := C7_create_interaction_invalidates
    ⟨false, [⟨"session_a", "user_a", [], 0, 0, true⟩], []⟩
    ⟨false, [("session_a", ⟨"session_a", "user_a", [], 0, 0⟩)], [], []⟩ 4 6
    "interaction_new" "session_a" "user_a" ⟨"session_a", "user_a", [], 0, 0, true⟩
    (by decide) (by decide) (by decide) (by decide)
  exact ⟨h.1, h.2.1⟩

end Chatbot

namespace Chatbot

/-- C8 (amended): for a valid (session_id, owner) pair whose cache entry
agrees with the durable row on session_id, user_id, interaction_ids and
created_at (as every entry written by the code does at write time), the
snapshot served from a cache hit and the one served from the
Durable-Store fallback agree on those four fields; the last_active field
may differ — the cache hit returns the cached timestamp while the
fallback stamps the current time (see the counterexample). -/
theorem C8_amended_snapshot_agreement (db : DB) (c : Cache) (now : Nat)
    (sid uid : String) (e : SessionSnapshot) (d : SessionDoc)
    (hc : c.failing = false)
    (he : lookupA c.sessions sid = some e) (heo : e.user_id = uid)
    (hdb : db.failing = false)
    (hd : db.sessions.find? (fun x => x.session_id == sid && x.user_id == uid) = some d)
    (h1 : e.session_id = d.session_id) (h2 : e.user_id = d.user_id)
    (h3 : e.interaction_ids = d.interaction_ids) (h4 : e.created_at = d.created_at) :
    (ChatService.get_session db c now sid uid).1.isSome = true ∧
    (ChatService.get_session db { c with sessions := removeA c.sessions sid }
        now sid uid).1.isSome = true ∧
    Option.map (fun s => s.session_id) (ChatService.get_session db c now sid uid).1
      = Option.map (fun s => s.session_id)
        (ChatService.get_session db { c with sessions := removeA c.sessions sid }
          now sid uid).1 ∧
    Option.map (fun s => s.user_id) (ChatService.get_session db c now sid uid).1
      = Option.map (fun s => s.user_id)
        (ChatService.get_session db { c with sessions := removeA c.sessions sid }
          now sid uid).1 ∧
    Option.map (fun s => s.interaction_ids) (ChatService.get_session db c now sid uid).1
      = Option.map (fun s => s.interaction_ids)
        (ChatService.get_session db { c with sessions := removeA c.sessions sid }
          now sid uid).1 ∧
    Option.map (fun s => s.created_at) (ChatService.get_session db c now sid uid).1
      = Option.map (fun s => s.created_at)
        (ChatService.get_session db { c with sessions := removeA c.sessions sid }
          now sid uid).1 := by
  have hhit : (ChatService.get_session db c now sid uid).1 = some e := by
    simp [ChatService.get_session, CacheService.get_session, hc, he, heo]
  have hmissC : CacheService.get_session
      { c with sessions := removeA c.sessions sid } sid = none := by
    simp [CacheService.get_session, hc, lookupA_removeA]
  have hmiss : (ChatService.get_session db
      { c with sessions := removeA c.sessions sid } now sid uid).1
        = some ⟨d.session_id, d.user_id, d.interaction_ids, d.created_at, now⟩ := by
    simp [ChatService.get_session, hmissC, ChatService.getSessionFallback, hdb, hd]
  rw [hhit, hmiss]
  simp [h1, h2, h3, h4]

/-- Witness for the amended C8 at a concrete coherent state. -/
theorem C8_amended_witness :
    Option.map (fun s => s.interaction_ids)
        (ChatService.get_session C8db C8cacheHit 5 "session_a" "user_a").1
      = Option.map (fun s => s.interaction_ids)
        (ChatService.get_session C8db
          { C8cacheHit with sessions := removeA C8cacheHit.sessions "session_a" }
          5 "session_a" "user_a").1 :=
  (C8_amended_snapshot_agreement C8db C8cacheHit 5 "session_a" "user_a"
    ⟨"session_a", "user_a", ["interaction_x"], 0, 0⟩
    ⟨"session_a", "user_a", ["interaction_x"], 0, 0, true⟩
    (by decide) (by decide) (by decide) (by decide) (by decide)
    rfl rfl rfl rfl).2.2.2.2.1

/-- Counterexample to C8 as stated: the same valid pair read at instant 5
yields last_active 0 from the cache hit but last_active 5 from the
fallback, so the snapshots are not identical. -/
theorem C8_counterexample :
    (ChatService.get_session C8db C8cacheHit 5 "session_a" "user_a").1
      = some ⟨"session_a", "user_a", ["interaction_x"], 0, 0⟩ ∧
    (ChatService.get_session C8db ⟨false, [], [], []⟩ 5 "session_a" "user_a").1
      = some ⟨"session_a", "user_a", ["interaction_x"], 0, 5⟩ ∧
    (⟨"session_a", "user_a", ["interaction_x"], 0, 0⟩ : SessionSnapshot)
      ≠ ⟨"session_a", "user_a", ["interaction_x"], 0, 5⟩ := by
  decide

/-- C9: when the Response Generator fails during send_message (with the
session served from cache and the supplied interaction cache-present),
the call surfaces the distinct generation-failure error — which the
send-message route classifies as AI_SERVICE_ERROR — and the entire
store and cache are returned unchanged: no partial message pair is
persisted anywhere. -/
theorem C9_generation_failure_persists_nothing (db : DB) (c : Cache) (now : Nat)
    (freshSid freshIid freshMid m : String)
    (uid rawMsg sid iid : String) (se : SessionSnapshot) (e : InteractionSnapshot)
    (hc : c.failing = false)
    (hsid : sid ≠ "") (hiid : iid ≠ "")
    (hse : lookupA c.sessions sid = some se) (hseOwner : se.user_id = uid)
    (hcached : lookupA c.interactions iid = some e) :
    ChatService.send_message db c now freshSid freshIid freshMid
        (fun _ => Except.error m) uid rawMsg (some sid) (some iid)
      = (Except.error (ChatErr.exc
          ("Failed to send message: Failed to generate AI response: " ++ m)), db, c) ∧
    routeDetectsAiError (ChatErr.exc
      ("Failed to send message: Failed to generate AI response: " ++ m)) = true := by
  constructor
  · have hstep : ChatService.sendSessionStep db c now freshSid uid (some sid)
        = (Except.ok sid, db, c) := by
      simp [ChatService.sendSessionStep, optFalsy, hsid, ChatService.get_session,
        CacheService.get_session, hc, hse, hseOwner]
    have hexp : CacheService.check_interaction_expired c iid = false := by
      simp [CacheService.check_interaction_expired, hc, hcached]
    have hfalsy : optFalsy (some iid) = false := by
      simp [optFalsy, hiid]
    simp only [ChatService.send_message, hstep, ChatService.sendInteractionStep,
      hfalsy, Bool.not_false, if_true, Option.getD_some]
    simp [hexp, ChatService.sendPersistStep, ChatService.wrapSendErr, Except.mapError]
    rw [← String.append_assoc]
    rfl
  · simp only [routeDetectsAiError, Bool.or_eq_true, decide_eq_true_eq]
    right
    refine ⟨"Failed to send message: ".data, ": ".data ++ m.data, ?_⟩
    rw [String.data_append]
    rw [show ("Failed to send message: Failed to generate AI response: ").data
      = "Failed to send message: ".data ++ "Failed to generate AI response".data
        ++ ": ".data from by decide]
    simp [List.append_assoc]

/-- Witness for C9 at a concrete state with a failing generator. -/
theorem C9_witness :
    ChatService.send_message ⟨false, [], []⟩
        ⟨false, [("session_a", ⟨"session_a", "user_a", [], 0, 0⟩)],
          [("interaction_a", ⟨"interaction_a", "session_a", "user_a", [], 0⟩)], []⟩
        5 "session_x" "interaction_x" "message_x" (fun _ => Except.error "boom")
        "user_a" "hi" (some "session_a") (some "interaction_a")
      = (Except.error (ChatErr.exc
            ("Failed to send message: Failed to generate AI response: " ++ "boom")),
          ⟨false, [], []⟩,
          ⟨false, [("session_a", ⟨"session_a", "user_a", [], 0, 0⟩)],
            [("interaction_a", ⟨"interaction_a", "session_a", "user_a", [], 0⟩)], []⟩) :=
  (C9_generation_failure_persists_nothing ⟨false, [], []⟩
    ⟨false, [("session_a", ⟨"session_a", "user_a", [], 0, 0⟩)],
      [("interaction_a", ⟨"interaction_a", "session_a", "user_a", [], 0⟩)], []⟩
    5 "session_x" "interaction_x" "message_x" "boom" "user_a" "hi"
    "session_a" "interaction_a" ⟨"session_a", "user_a", [], 0, 0⟩
    ⟨"interaction_a", "session_a", "user_a", [], 0⟩
    (by decide) (by decide) (by decide) (by decide) (by decide) (by decide)).1

/-- C10: the interaction-expiry check fails closed — while the cache
layer itself errors, check_interaction_expired reports expired, and every
send_message call carrying an explicit interaction_id (the interaction
cache contents being irrelevant and unconstrained) is rejected with the
"Interaction expired" error even though the session resolves fine through
the Durable Store; under the same outage the rate limiter fails open,
allowing the request. -/
theorem C10_cache_outage_fails_closed (db : DB) (c : Cache) (s : RateSettings) (now : Nat)
    (freshSid freshIid freshMid : String) (ai : List Turn → Except String String)
    (uid rawMsg sid iid uid2 : String) (d : SessionDoc)
    (hc : c.failing = true) (hdb : db.failing = false)
    (hsid : sid ≠ "") (hiid : iid ≠ "")
    (hfind : db.sessions.find? (fun x => x.session_id == sid && x.user_id == uid)
      = some d) :
    CacheService.check_interaction_expired c iid = true ∧
    (ChatService.send_message db c now freshSid freshIid freshMid ai uid rawMsg
        (some sid) (some iid)).1
      = Except.error
          (ChatErr.valueErr "Interaction expired. Please create a new interaction.") ∧
    (CacheService.check_rate_limit s c now uid2).1 = true := by
  have hexp : CacheService.check_interaction_expired c iid = true := by
    simp [CacheService.check_interaction_expired, hc]
  refine ⟨hexp, ?_, ?_⟩
  · have hget1 : (ChatService.get_session db c now sid uid).1
          = some ⟨d.session_id, d.user_id, d.interaction_ids, d.created_at, now⟩ ∧
        (ChatService.get_session db c now sid uid).2.2 = c := by
      constructor <;>
        simp [ChatService.get_session, CacheService.get_session, hc,
          ChatService.getSessionFallback, hdb, hfind, CacheService.cache_session]
    have hfalsySid : optFalsy (some sid) = false := by simp [optFalsy, hsid]
    have hfalsyIid : optFalsy (some iid) = false := by simp [optFalsy, hiid]
    have hstep1 : (ChatService.sendSessionStep db c now freshSid uid (some sid)).1
          = Except.ok sid ∧
        (ChatService.sendSessionStep db c now freshSid uid (some sid)).2.2 = c := by
      constructor <;>
        simp [ChatService.sendSessionStep, hfalsySid, hget1.1, hget1.2]
    simp only [ChatService.send_message, hstep1.1, hstep1.2]
    simp [ChatService.sendInteractionStep, hfalsyIid, hexp, Except.mapError,
      ChatService.wrapSendErr]
  · simp [CacheService.check_rate_limit, hc]

/-- Witness for C10 at a concrete state with an unreachable cache. -/
theorem C10_witness :
    (ChatService.send_message ⟨false, [⟨"session_a", "user_a", [], 0, 0, true⟩], []⟩
        ⟨true, [], [], []⟩ 5 "session_x" "interaction_x" "message_x"
        (fun _ => Except.ok "r") "user_a" "hi"
        (some "session_a") (some "interaction_a")).1
      = Except.error
          (ChatErr.valueErr "Interaction expired. Please create a new interaction.") :=
  (C10_cache_outage_fails_closed ⟨false, [⟨"session_a", "user_a", [], 0, 0, true⟩], []⟩
    ⟨true, [], [], []⟩ ⟨100, 3600⟩ 5 "session_x" "interaction_x" "message_x"
    (fun _ => Except.ok "r") "user_a" "hi" "session_a" "interaction_a" "user_b"
    ⟨"session_a", "user_a", [], 0, 0, true⟩
    (by decide) (by decide) (by decide) (by decide) (by decide)).2.1

end Chatbot
